import Mathlib

/-!
Shallow embedding of `src/mongo_user_blueprint/user.py` from the
`mongo-user-blueprint` repository: the `User` document adapter
(`UserState`, `User`, `to_mongo`, `from_mongo`, `__eq__`/`__ne__`, the
Flask-Login properties) and the callback-wiring functions
(`get_user_by_identifier`, `insert_user`, `update_user_password`,
`verify_registration`) together with a model of the MongoDB collection
operations they invoke (`find_one`, `insert_one`, `update_one`).

The base class `pyt.mongoutil.MainDocument` is not part of the repository
sources; the parts of it the code relies on (the inherited `_id` identifier
field, its serialization, and the `id` accessor) are modelled from the spec
where indicated.

Write acknowledgement: the model fixes `acknowledged = true` on every write
result, matching pymongo's default (acknowledged) write concern; with an
unacknowledged write concern pymongo raises on accessing `modified_count`,
which is outside this model.
-/

namespace MongoUserBlueprint

/-- Modelled from the spec: the opaque identifier of a stored record
(`pyt.mongoutil.MainDocument` is not in the repository sources).  Per the
spec the identifier is opaque, immutable, and used for equality, and
records with unset/default identifiers are never equal to each other; we
model the default identifier as a per-record fresh value (a creation
nonce), matching client-side `ObjectId` generation. -/
structure ObjectId where
  nonce : Nat
deriving DecidableEq, Repr

/-- A BSON-style value stored in a document field.  Only the shapes this
program actually stores are modelled: strings, Python ints, object ids. -/
inductive BsonValue where
  | str : String → BsonValue
  | int : Int → BsonValue
  | oid : ObjectId → BsonValue
deriving DecidableEq, Repr

/-- A stored document: a flat key-to-value mapping (Python `Dict`),
modelled as an association list with unique keys maintained by `Doc.set`. -/
abbrev Doc : Type := List (String × BsonValue)

/-- Dictionary lookup `d[k]`, returning `none` when the key is absent. -/
def Doc.get (d : Doc) (k : String) : Option BsonValue :=
  match d with
  | [] => none
  | (k₀, v₀) :: rest => if k₀ = k then some v₀ else Doc.get rest k

/-- Dictionary assignment `d[k] = v`: replaces the value at the first
occurrence of `k`, or appends the pair when `k` is absent. -/
def Doc.set (d : Doc) (k : String) (v : BsonValue) : Doc :=
  match d with
  | [] => [(k, v)]
  | (k₀, v₀) :: rest =>
      if k₀ = k then (k, v) :: rest else (k₀, v₀) :: Doc.set rest k v

/-- Removal of a key from a document (used to state what happens when an
expected field is absent from a stored mapping). -/
def Doc.erase (d : Doc) (k : String) : Doc :=
  match d with
  | [] => []
  | (k₀, v₀) :: rest =>
      if k₀ = k then Doc.erase rest k else (k₀, v₀) :: Doc.erase rest k

/-- `UserState.PENDING_VERIFICATION = 1` (user.py line 40). -/
def UserState.PENDING_VERIFICATION : Int := 1

/-- `UserState.ACTIVE = 2` (user.py line 45). -/
def UserState.ACTIVE : Int := 2

/-- The `User` document (user.py, class `User`).  The seven slots declared
in the class, plus the `_id` field inherited from `MainDocument`
(modelled from the spec: the inherited identifier field). -/
structure User where
  _id : ObjectId
  email : String
  first_name : String
  last_name : String
  password : String
  registration_date : Int
  state : Int
  username : String
deriving DecidableEq, Repr

/-- `User.__init__` (user.py lines 79-118): all string fields empty,
`registration_date = date.today().toordinal()` (passed in as `today`),
`state = UserState.PENDING_VERIFICATION`.  `super().__init__()` is
modelled from the spec as assigning the fresh per-record identifier
`nonce` (see `ObjectId`). -/
def User.init (nonce : Nat) (today : Int) : User :=
  { _id := ⟨nonce⟩
    email := ""
    first_name := ""
    last_name := ""
    password := ""
    registration_date := today
    state := UserState.PENDING_VERIFICATION
    username := "" }

/-- `User.__eq__` (user.py lines 123-126): two users compare equal exactly
when their identifiers are equal. -/
def User.eq (self other : User) : Bool :=
  self._id = other._id

/-- `User.__ne__` (user.py lines 128-131). -/
def User.ne (self other : User) : Bool :=
  self._id ≠ other._id

/-- `User.is_active` (user.py lines 142-152): `state == UserState.ACTIVE`. -/
def User.is_active (self : User) : Bool :=
  self.state = UserState.ACTIVE

/-- `User.is_anonymus` (user.py lines 154-162): constantly `False`. -/
def User.is_anonymus (_self : User) : Bool :=
  false

/-- `User.is_authenticated` (user.py lines 164-173): constantly `True`. -/
def User.is_authenticated (_self : User) : Bool :=
  true

/-- `MainDocument.id`.  Modelled from the spec: the accessor for the
inherited identifier field used by the update filters
(`{"_id": user.id}`). -/
def User.id (self : User) : ObjectId :=
  self._id

/-- `User.to_mongo` (user.py lines 192-203).  `super().to_mongo()` is
modelled from the spec: the serialized mapping contains every attribute
including the inherited identifier field, so the base mapping is
`{"_id": self._id}`; the method then adds the seven declared fields. -/
def User.to_mongo (self : User) : Doc :=
  [ ("_id", BsonValue.oid self._id)
  , ("email", BsonValue.str self.email)
  , ("first_name", BsonValue.str self.first_name)
  , ("last_name", BsonValue.str self.last_name)
  , ("password", BsonValue.str self.password)
  , ("registration_date", BsonValue.int self.registration_date)
  , ("state", BsonValue.int self.state)
  , ("username", BsonValue.str self.username) ]

/-- Deserialization failure.  `keyError` models Python's `KeyError` on a
direct `data[k]` access with `k` absent (the spec's MissingField).
`typeMismatch` is an artifact of the typed embedding: Python would assign
a value of unexpected shape without complaint; no theorem relies on this
constructor. -/
inductive DeserializeError where
  | keyError : String → DeserializeError
  | typeMismatch : String → DeserializeError
deriving DecidableEq, Repr

/-- Direct dictionary access `data[k]` expecting a string value. -/
def getStr (d : Doc) (k : String) : Except DeserializeError String :=
  match d.get k with
  | none => .error (.keyError k)
  | some (.str s) => .ok s
  | some _ => .error (.typeMismatch k)

/-- Direct dictionary access `data[k]` expecting an int value. -/
def getInt (d : Doc) (k : String) : Except DeserializeError Int :=
  match d.get k with
  | none => .error (.keyError k)
  | some (.int i) => .ok i
  | some _ => .error (.typeMismatch k)

/-- Direct dictionary access `data[k]` expecting an object id. -/
def getOid (d : Doc) (k : String) : Except DeserializeError ObjectId :=
  match d.get k with
  | none => .error (.keyError k)
  | some (.oid i) => .ok i
  | some _ => .error (.typeMismatch k)

/-- `User.from_mongo` (user.py lines 205-214): populates every attribute
of `self` by direct key access on `data`, raising `KeyError` on a missing
key.  `super().from_mongo(data)` is modelled from the spec as reading the
inherited identifier field `"_id"` first; the seven declared fields follow
in source order. -/
def User.from_mongo (self : User) (data : Doc) : Except DeserializeError User := do
  let i ← getOid data "_id"
  let e ← getStr data "email"
  let f ← getStr data "first_name"
  let l ← getStr data "last_name"
  let p ← getStr data "password"
  let r ← getInt data "registration_date"
  let s ← getInt data "state"
  let u ← getStr data "username"
  pure { self with
          _id := i, email := e, first_name := f, last_name := l,
          password := p, registration_date := r, state := s, username := u }

/-- The keys `User.from_mongo` accesses, in source order. -/
def expectedKeys : List String :=
  [ "_id", "email", "first_name", "last_name", "password"
  , "registration_date", "state", "username" ]

/-- Whether a stored document matches a pymongo equality filter: every
`key: value` pair of the filter must be present in the document. -/
def matchesFilter (d : Doc) (filter : List (String × BsonValue)) : Bool :=
  filter.all fun p => d.get p.1 = some p.2

/-- `pymongo.results.UpdateResult`: the fields the program reads. -/
structure UpdateResult where
  acknowledged : Bool
  modified_count : Nat
deriving DecidableEq, Repr

/-- `pymongo.results.InsertOneResult`: the fields the program reads. -/
structure InsertOneResult where
  acknowledged : Bool
  inserted_id : Option ObjectId
deriving DecidableEq, Repr

/-- The id stored under `"_id"` in a document, when present and an id. -/
def Doc.objectId (d : Doc) : Option ObjectId :=
  match d.get "_id" with
  | some (.oid i) => some i
  | _ => none

/-- Collection state: the list of stored documents, in insertion order. -/
abbrev Collection : Type := List Doc

/-- `collection.find_one(filter)`: the first stored document matching the
filter, or an explicit absence value. -/
def find_one (coll : Collection) (filter : List (String × BsonValue)) : Option Doc :=
  match coll with
  | [] => none
  | d :: rest => if matchesFilter d filter then some d else find_one rest filter

/-- `collection.insert_one(document)`: appends the document and reports
its id.  pymongo generates an `_id` client-side when the document lacks
one; every document this program inserts already carries its `_id`, so
`inserted_id` is read off the document. -/
def insert_one (coll : Collection) (doc : Doc) : InsertOneResult × Collection :=
  ({ acknowledged := true, inserted_id := doc.objectId }, coll ++ [doc])

/-- Applies a `$set` document to a stored document, key by key. -/
def applySets (d : Doc) (sets : List (String × BsonValue)) : Doc :=
  match sets with
  | [] => d
  | (k, v) :: rest => applySets (d.set k v) rest

/-- `collection.update_one(filter, {"$set": sets})`: rewrites the first
matching document; `modified_count` counts documents actually changed
(MongoDB reports 0 when the `$set` left the document identical). -/
def update_one (coll : Collection) (filter sets : List (String × BsonValue)) :
    UpdateResult × Collection :=
  match coll with
  | [] => ({ acknowledged := true, modified_count := 0 }, [])
  | d :: rest =>
      if matchesFilter d filter then
        ({ acknowledged := true
           modified_count := if applySets d sets = d then 0 else 1 },
         applySets d sets :: rest)
      else
        ((update_one rest filter sets).1, d :: (update_one rest filter sets).2)

/-- `get_user_by_identifier` (user.py lines 255-268): queries the `email`
field when the identifier contains `@`, the `username` field otherwise,
and returns the matching record or an explicit absence value.  Python's
`"@" in identifier` is a substring test; for the one-character needle `@`
it is exactly membership of the character in the identifier's characters,
which is how it is modelled.  The `CollectionDescriptor` wrapper's
deserialization of the found document is left to `User.from_mongo`; the
lookup itself is on the stored documents. -/
def get_user_by_identifier (coll : Collection) (identifier : String) : Option Doc :=
  let prop := if identifier.data.contains '@' then "email" else "username"
  find_one coll [(prop, BsonValue.str identifier)]

/-- `get_user_identifier` (user.py lines 270-281): the reset key is the
user's email. -/
def get_user_identifier (user : User) : String :=
  user.email

/-- `get_user_password` (user.py lines 283-294). -/
def get_user_password (user : User) : String :=
  user.password

/-- `user_blueprint.user.RegistrationData`: the registration payload the
inserter receives (the five fields `insert_user` reads). -/
structure RegistrationData where
  username : String
  email : String
  first_name : String
  last_name : String
  password : String
deriving DecidableEq, Repr

/-- `insert_user` (user.py lines 296-315): builds a fresh `User` (state
pending, registration date today), copies the five payload fields into
it, inserts its serialization, and returns
`result.acknowledged and result.inserted_id is not None`.
`nonce` is the fresh identifier of the new record and `today` the current
day ordinal, both inputs of the model. -/
def insert_user (data : RegistrationData) (nonce : Nat) (today : Int)
    (coll : Collection) : Bool × Collection :=
  let user := User.init nonce today
  let user := { user with
                 username := data.username, email := data.email,
                 first_name := data.first_name, last_name := data.last_name,
                 password := data.password }
  let res := insert_one coll user.to_mongo
  (res.1.acknowledged && res.1.inserted_id.isSome, res.2)

/-- `is_user_verified` (user.py lines 317-328). -/
def is_user_verified (user : User) : Bool :=
  user.is_active

/-- `update_user_password` (user.py lines 330-347): sets the in-memory
record's password, then issues
`update_one({"_id": user.id}, {"$set": {"password": user.password}})`,
returning `result.acknowledged and result.modified_count == 1`.
The result is (returned boolean, record after the call, collection after
the call) — the Python function mutates `user` in place. -/
def update_user_password (user : User) (password_hash : String)
    (coll : Collection) : Bool × User × Collection :=
  let user := { user with password := password_hash }
  let res :=
    update_one coll [("_id", BsonValue.oid user.id)]
      [("password", BsonValue.str user.password)]
  (res.1.acknowledged && res.1.modified_count == 1, user, res.2)

/-- `verify_registration` (user.py lines 349-369): returns `False` at once
unless the record is pending verification; otherwise sets the in-memory
state to active, issues
`update_one({"_id": user.id}, {"$set": {"state": user.state}})`, and
returns `result.acknowledged and result.modified_count == 1`.
The result is (returned boolean, record after the call, collection after
the call). -/
def verify_registration (user : User) (coll : Collection) :
    Bool × User × Collection :=
  if user.state ≠ UserState.PENDING_VERIFICATION then
    (false, user, coll)
  else
    let user := { user with state := UserState.ACTIVE }
    let res :=
      update_one coll [("_id", BsonValue.oid user.id)]
        [("state", BsonValue.int user.state)]
    (res.1.acknowledged && res.1.modified_count == 1, user, res.2)

/-- The record `insert_user` constructs before inserting: a fresh user
with the five payload fields copied in (user.py lines 307-312). -/
def insertedUser (data : RegistrationData) (nonce : Nat) (today : Int) : User :=
  { User.init nonce today with
     username := data.username, email := data.email,
     first_name := data.first_name, last_name := data.last_name,
     password := data.password }

/-! ### Helper lemmas about the document and collection model -/

/-- Number of positions at which two collection states hold different
documents ("how many stored documents were modified" between the pre- and
post-state of a write). -/
def changedCount : Collection → Collection → Nat
  | [], _ => 0
  | _ :: _, [] => 0
  | d₁ :: r₁, d₂ :: r₂ => (if d₁ = d₂ then 0 else 1) + changedCount r₁ r₂

theorem changedCount_self (c : Collection) : changedCount c c = 0 := by
  induction c with
  | nil => rfl
  | cons d rest ih => simp [changedCount, ih]

theorem Doc.get_set_ne (d : Doc) (k : String) (v : BsonValue) (k' : String)
    (h : k ≠ k') : (d.set k v).get k' = d.get k' := by
  induction d with
  | nil => simp [Doc.set, Doc.get, h]
  | cons p rest ih =>
      obtain ⟨k₀, v₀⟩ := p
      by_cases hk : k₀ = k
      · subst hk
        simp [Doc.set, Doc.get, h]
      · by_cases hk' : k₀ = k' <;> simp [Doc.set, Doc.get, hk, hk', Ne.symm h, ih]

theorem applySets_get_ne (sets : List (String × BsonValue)) (d : Doc)
    (k' : String) (h : ∀ p ∈ sets, p.1 ≠ k') :
    (applySets d sets).get k' = d.get k' := by
  induction sets generalizing d with
  | nil => rfl
  | cons p rest ih =>
      obtain ⟨k, v⟩ := p
      have hk : k ≠ k' := h (k, v) (List.mem_cons_self _ _)
      have hrest : ∀ p ∈ rest, p.1 ≠ k' := fun p hp => h p (List.mem_cons_of_mem _ hp)
      simp only [applySets]
      rw [ih (d.set k v) hrest, Doc.get_set_ne _ _ _ _ hk]

theorem update_one_acknowledged (coll : Collection)
    (filter sets : List (String × BsonValue)) :
    (update_one coll filter sets).1.acknowledged = true := by
  induction coll with
  | nil => rfl
  | cons d rest ih =>
      simp only [update_one]
      split
      · rfl
      · exact ih

theorem update_one_length (coll : Collection)
    (filter sets : List (String × BsonValue)) :
    (update_one coll filter sets).2.length = coll.length := by
  induction coll with
  | nil => rfl
  | cons d rest ih =>
      simp only [update_one]
      split
      · simp
      · simp [ih]

theorem update_one_modified_count (coll : Collection)
    (filter sets : List (String × BsonValue)) :
    (update_one coll filter sets).1.modified_count
      = changedCount coll (update_one coll filter sets).2 := by
  induction coll with
  | nil => rfl
  | cons d rest ih =>
      simp only [update_one]
      split
      · by_cases hd : applySets d sets = d
        · simp [changedCount, hd, changedCount_self]
        · have hd' : ¬d = applySets d sets := fun hh => hd hh.symm
          simp [changedCount, hd, hd', changedCount_self]
      · simp [changedCount, ih]

theorem update_one_frame (coll : Collection)
    (filter sets : List (String × BsonValue)) (k' : String)
    (h : ∀ p ∈ sets, p.1 ≠ k') (i : Nat) :
    (((update_one coll filter sets).2.getD i []).get k')
      = ((coll.getD i []).get k') := by
  induction coll generalizing i with
  | nil => rfl
  | cons d rest ih =>
      simp only [update_one]
      split
      · cases i with
        | zero => simpa using applySets_get_ne sets d k' h
        | succ j => simp
      · cases i with
        | zero => simp
        | succ j => simpa using ih j

theorem find_one_eq_none_iff (coll : Collection)
    (filter : List (String × BsonValue)) :
    find_one coll filter = none ↔ ∀ d ∈ coll, matchesFilter d filter = false := by
  induction coll with
  | nil => simp [find_one]
  | cons d rest ih =>
      by_cases hm : matchesFilter d filter <;> simp [find_one, hm, ih]

theorem from_mongo_to_mongo (self u : User) :
    User.from_mongo self (User.to_mongo u) = Except.ok u := by
  rfl

theorem except_bind_ok {α β : Type} (x : Except DeserializeError α)
    (f : α → Except DeserializeError β) (w : β)
    (h : x >>= f = Except.ok w) : ∃ a, x = Except.ok a ∧ f a = Except.ok w := by
  cases x with
  | error e => exact Except.noConfusion h
  | ok a => exact ⟨a, rfl, h⟩

theorem getOid_isSome {d : Doc} {k : String} {i : ObjectId}
    (hh : getOid d k = Except.ok i) : (d.get k).isSome := by
  rcases hval : d.get k with _ | v
  · rw [getOid, hval] at hh
    exact Except.noConfusion hh
  · simp [hval]

theorem getStr_isSome {d : Doc} {k : String} {s : String}
    (hh : getStr d k = Except.ok s) : (d.get k).isSome := by
  rcases hval : d.get k with _ | v
  · rw [getStr, hval] at hh
    exact Except.noConfusion hh
  · simp [hval]

theorem getInt_isSome {d : Doc} {k : String} {i : Int}
    (hh : getInt d k = Except.ok i) : (d.get k).isSome := by
  rcases hval : d.get k with _ | v
  · rw [getInt, hval] at hh
    exact Except.noConfusion hh
  · simp [hval]

theorem from_mongo_ok_keys (self : User) (data : Doc) (w : User)
    (h : User.from_mongo self data = Except.ok w) :
    ∀ k ∈ expectedKeys, (data.get k).isSome := by
  unfold User.from_mongo at h
  obtain ⟨i, h1, h⟩ := except_bind_ok _ _ _ h
  obtain ⟨e, h2, h⟩ := except_bind_ok _ _ _ h
  obtain ⟨f, h3, h⟩ := except_bind_ok _ _ _ h
  obtain ⟨l, h4, h⟩ := except_bind_ok _ _ _ h
  obtain ⟨p, h5, h⟩ := except_bind_ok _ _ _ h
  obtain ⟨r, h6, h⟩ := except_bind_ok _ _ _ h
  obtain ⟨s, h7, h⟩ := except_bind_ok _ _ _ h
  obtain ⟨u, h8, h⟩ := except_bind_ok _ _ _ h
  intro k hk
  simp only [expectedKeys, List.mem_cons, List.not_mem_nil, or_false] at hk
  rcases hk with rfl | rfl | rfl | rfl | rfl | rfl | rfl | rfl
  · exact getOid_isSome h1
  · exact getStr_isSome h2
  · exact getStr_isSome h3
  · exact getStr_isSome h4
  · exact getStr_isSome h5
  · exact getInt_isSome h6
  · exact getInt_isSome h7
  · exact getStr_isSome h8

theorem from_mongo_erase (self u : User) (k : String) (hk : k ∈ expectedKeys) :
    User.from_mongo self ((User.to_mongo u).erase k)
      = Except.error (DeserializeError.keyError k) := by
  simp only [expectedKeys, List.mem_cons, List.not_mem_nil, or_false] at hk
  rcases hk with rfl | rfl | rfl | rfl | rfl | rfl | rfl | rfl <;> rfl

/-! ### The claims -/

/-- C3: `get_user_by_identifier` queries the `email` field when the
identifier contains `@` and the `username` field otherwise; consequently
an identifier containing `@` never matches on `username` (when no record's
`email` equals it, the result is the absence value `none`, even if some
record's `username` equals it); the function returns the matching record
or an explicit absence value. -/
theorem claim_C3 (coll : Collection) (identifier : String) :
    (identifier.data.contains '@' = true →
      get_user_by_identifier coll identifier
          = find_one coll [("email", BsonValue.str identifier)]
      ∧ ((∀ d ∈ coll, d.get "email" ≠ some (BsonValue.str identifier)) →
          get_user_by_identifier coll identifier = none))
    ∧ (identifier.data.contains '@' = false →
      get_user_by_identifier coll identifier
          = find_one coll [("username", BsonValue.str identifier)])
    ∧ (get_user_by_identifier coll identifier = none
        ∨ ∃ d, get_user_by_identifier coll identifier = some d) := by
  refine ⟨fun hat => ⟨?_, ?_⟩, fun hn => ?_, ?_⟩
  · have hm : '@' ∈ identifier.data := by simpa using hat
    simp [get_user_by_identifier, hm]
  · intro habs
    have hm : '@' ∈ identifier.data := by simpa using hat
    simp only [get_user_by_identifier, hm, if_pos]
    rw [find_one_eq_none_iff]
    intro d hd
    simp [matchesFilter, hm, habs d hd]
  · have hm : '@' ∉ identifier.data := by simpa using hn
    simp [get_user_by_identifier, hm]
  · rcases get_user_by_identifier coll identifier with _ | d
    · exact Or.inl rfl
    · exact Or.inr ⟨d, rfl⟩

/-- C3 witness: `"a@x.com"` contains `@`; in a collection whose single
record has `username = "a@x.com"` but a different email, the lookup
returns `none`. -/
theorem claim_C3_witness :
    get_user_by_identifier
        [[("username", BsonValue.str "a@x.com"),
          ("email", BsonValue.str "b@y.org")]] "a@x.com" = none := by
  exact ((claim_C3 _ _).1 (by decide)).2 (by decide)

/-- C4: equality and inequality of two records are decided solely by
identifier equality; a record equals itself; two distinct records whose
identifiers are still at the per-record default value (distinct creation
nonces, see `ObjectId`) are never equal to each other. -/
theorem claim_C4 (u v : User) (n₁ n₂ : Nat) (d₁ d₂ : Int) :
    (User.eq u v = true ↔ u._id = v._id)
    ∧ (User.ne u v = !User.eq u v)
    ∧ User.eq u u = true
    ∧ (n₁ ≠ n₂ → User.eq (User.init n₁ d₁) (User.init n₂ d₂) = false) := by
  refine ⟨?_, ?_, ?_, fun hne => ?_⟩
  · simp [User.eq]
  · simp [User.ne, User.eq]
  · simp [User.eq]
  · simp [User.eq, User.init, ObjectId.mk.injEq, hne]

/-- C4 witness: two fresh records with distinct creation nonces are not
equal. -/
theorem claim_C4_witness :
    User.eq (User.init 0 737791) (User.init 1 737791) = false := by
  exact (claim_C4 (User.init 0 737791) (User.init 1 737791) 0 1 737791 737791).2.2.2
    (by decide)

/-- C6: deserialization populates every attribute of the record from the
mapping (round trip on a serialized record), and fails — with a
`keyError` (MissingField) raised on direct key access, never silently
defaulting — whenever any of the expected keys (`_id`, `email`,
`first_name`, `last_name`, `password`, `registration_date`, `state`,
`username`) is absent from the mapping. -/
theorem claim_C6 (self u : User) (data : Doc) (k : String)
    (hk : k ∈ expectedKeys) :
    User.from_mongo self (User.to_mongo u) = Except.ok u
    ∧ User.from_mongo self ((User.to_mongo u).erase k)
        = Except.error (DeserializeError.keyError k)
    ∧ (data.get k = none → ∀ w, User.from_mongo self data ≠ Except.ok w) := by
  refine ⟨from_mongo_to_mongo self u, from_mongo_erase self u k hk, ?_⟩
  intro hnone w hok
  have := from_mongo_ok_keys self data w hok k hk
  rw [hnone] at this
  exact Bool.noConfusion this

/-- C6 witness: round trip on a concrete record, failure with
`keyError "email"` when the `email` field is erased from the mapping, and
no success on a mapping lacking `email`. -/
theorem claim_C6_witness :
    User.from_mongo (User.init 0 737791) (User.to_mongo (User.init 1 737792))
        = Except.ok (User.init 1 737792)
    ∧ User.from_mongo (User.init 0 737791)
        ((User.to_mongo (User.init 1 737792)).erase "email")
        = Except.error (DeserializeError.keyError "email")
    ∧ (Doc.get ([] : Doc) "email" = none →
        ∀ w, User.from_mongo (User.init 0 737791) ([] : Doc) ≠ Except.ok w) := by
  have h := claim_C6 (User.init 0 737791) (User.init 1 737792) ([] : Doc)
    "email" (by decide)
  exact ⟨h.1, h.2.1, fun _ => h.2.2 (by decide)⟩

/-- C7: `to_mongo` produces a flat key-to-value mapping containing every
attribute of the data model (the seven declared fields plus the inherited
identifier), and `from_mongo` on that mapping restores every attribute:
serialize followed by deserialize is the identity on all record fields. -/
theorem claim_C7 (self u : User) :
    (User.to_mongo u).get "_id" = some (BsonValue.oid u._id)
    ∧ (User.to_mongo u).get "email" = some (BsonValue.str u.email)
    ∧ (User.to_mongo u).get "first_name" = some (BsonValue.str u.first_name)
    ∧ (User.to_mongo u).get "last_name" = some (BsonValue.str u.last_name)
    ∧ (User.to_mongo u).get "password" = some (BsonValue.str u.password)
    ∧ (User.to_mongo u).get "registration_date"
        = some (BsonValue.int u.registration_date)
    ∧ (User.to_mongo u).get "state" = some (BsonValue.int u.state)
    ∧ (User.to_mongo u).get "username" = some (BsonValue.str u.username)
    ∧ User.from_mongo self (User.to_mongo u) = Except.ok u := by
  refine ⟨rfl, rfl, rfl, rfl, rfl, rfl, rfl, rfl, from_mongo_to_mongo self u⟩

/-- C10: every record is reported authenticated (`is_authenticated` is
constantly true) and non-anonymous (`is_anonymus` is constantly false),
whatever its fields; only `is_active` — state equals `ACTIVE` —
distinguishes a verified record from an unverified one. -/
theorem claim_C10 (u : User) :
    u.is_authenticated = true
    ∧ u.is_anonymus = false
    ∧ (u.is_active = true ↔ u.state = UserState.ACTIVE) := by
  refine ⟨rfl, rfl, ?_⟩
  simp [User.is_active]

/-- C1: `verify_registration` is a no-op returning `false` when the
record's state is not `PENDING_VERIFICATION`; when it is pending, it sets
the record's state to `ACTIVE`, persists only the `state` field (same
number of stored documents, every key other than `state` of every stored
document unchanged), and returns `true` iff exactly one stored document
was modified; applied a second time to the now-active record it returns
`false` and leaves record and store unchanged. -/
theorem claim_C1 (user : User) (coll : Collection) :
    (user.state ≠ UserState.PENDING_VERIFICATION →
      verify_registration user coll = (false, user, coll))
    ∧ (user.state = UserState.PENDING_VERIFICATION →
        (verify_registration user coll).2.1
            = { user with state := UserState.ACTIVE }
        ∧ (verify_registration user coll).2.2.length = coll.length
        ∧ (∀ i : Nat, ∀ k' : String, k' ≠ "state" →
            (((verify_registration user coll).2.2.getD i []).get k')
              = ((coll.getD i []).get k'))
        ∧ ((verify_registration user coll).1 = true
            ↔ changedCount coll (verify_registration user coll).2.2 = 1)
        ∧ verify_registration (verify_registration user coll).2.1
              (verify_registration user coll).2.2
            = (false, (verify_registration user coll).2.1,
               (verify_registration user coll).2.2)) := by
  constructor
  · intro h
    simp [verify_registration, h]
  · intro h
    have hred : verify_registration user coll =
        ((update_one coll [("_id", BsonValue.oid user._id)]
            [("state", BsonValue.int UserState.ACTIVE)]).1.acknowledged
          && ((update_one coll [("_id", BsonValue.oid user._id)]
            [("state", BsonValue.int UserState.ACTIVE)]).1.modified_count == 1),
         { user with state := UserState.ACTIVE },
         (update_one coll [("_id", BsonValue.oid user._id)]
            [("state", BsonValue.int UserState.ACTIVE)]).2) := by
      simp [verify_registration, h, User.id]
    rw [hred]
    refine ⟨rfl, update_one_length _ _ _, ?_, ?_, ?_⟩
    · intro i k' hk'
      apply update_one_frame
      intro p hp
      simp only [List.mem_singleton] at hp
      rw [hp]
      exact Ne.symm hk'
    · simp [update_one_acknowledged, update_one_modified_count]
    · simp [verify_registration, UserState.ACTIVE, UserState.PENDING_VERIFICATION]

/-- C1 witness: applied to an already-active record the verifier is a
no-op returning `false`; applied to a pending record stored in a
one-document collection it returns `true` exactly when one stored
document was modified. -/
theorem claim_C1_witness :
    verify_registration { User.init 0 737791 with state := UserState.ACTIVE }
        ([] : Collection)
      = (false, { User.init 0 737791 with state := UserState.ACTIVE },
         ([] : Collection))
    ∧ ((verify_registration (User.init 0 737791)
          [User.to_mongo (User.init 0 737791)]).1 = true
        ↔ changedCount [User.to_mongo (User.init 0 737791)]
            (verify_registration (User.init 0 737791)
              [User.to_mongo (User.init 0 737791)]).2.2 = 1) := by
  exact ⟨(claim_C1 { User.init 0 737791 with state := UserState.ACTIVE } []).1
           (by decide),
         ((claim_C1 (User.init 0 737791)
             [User.to_mongo (User.init 0 737791)]).2 (by decide)).2.2.2.1⟩

/-- C2: `insert_user` constructs a new record whose state is
`PENDING_VERIFICATION` and whose registration date is the current day,
copies the five payload fields into it, appends its serialization to the
collection, and returns `true` iff the insert was acknowledged and a new
id was assigned. -/
theorem claim_C2 (data : RegistrationData) (nonce : Nat) (today : Int)
    (coll : Collection) :
    insert_user data nonce today coll
        = ((insert_one coll (insertedUser data nonce today).to_mongo).1.acknowledged
            && ((insert_one coll
                  (insertedUser data nonce today).to_mongo).1.inserted_id).isSome,
           coll ++ [(insertedUser data nonce today).to_mongo])
    ∧ (insertedUser data nonce today).state = UserState.PENDING_VERIFICATION
    ∧ (insertedUser data nonce today).registration_date = today
    ∧ (insertedUser data nonce today).username = data.username
    ∧ (insertedUser data nonce today).email = data.email
    ∧ (insertedUser data nonce today).first_name = data.first_name
    ∧ (insertedUser data nonce today).last_name = data.last_name
    ∧ (insertedUser data nonce today).password = data.password
    ∧ ((insert_user data nonce today coll).1 = true
        ↔ ((insert_one coll
              (insertedUser data nonce today).to_mongo).1.acknowledged = true
           ∧ (insert_one coll
              (insertedUser data nonce today).to_mongo).1.inserted_id ≠ none)) := by
  refine ⟨rfl, rfl, rfl, rfl, rfl, rfl, rfl, rfl, ?_⟩
  simp [insert_user, insertedUser, insert_one, Doc.objectId, User.to_mongo,
    Doc.get, User.init]

/-- C5: `update_user_password` sets the record's password hash and
persists only that field: the record after the call differs from the
record before only in its `password` attribute (its serialization agrees
on every other key), the store keeps the same number of documents with
every key other than `password` of every stored document unchanged, and
the call returns `true` iff exactly one stored document was modified. -/
theorem claim_C5 (user : User) (hash : String) (coll : Collection) :
    (update_user_password user hash coll).2.1 = { user with password := hash }
    ∧ (∀ k' : String, k' ≠ "password" →
        Doc.get (User.to_mongo (update_user_password user hash coll).2.1) k'
          = Doc.get (User.to_mongo user) k')
    ∧ (update_user_password user hash coll).2.2.length = coll.length
    ∧ (∀ i : Nat, ∀ k' : String, k' ≠ "password" →
        (((update_user_password user hash coll).2.2.getD i []).get k')
          = ((coll.getD i []).get k'))
    ∧ ((update_user_password user hash coll).1 = true
        ↔ changedCount coll (update_user_password user hash coll).2.2 = 1) := by
  have hred : update_user_password user hash coll =
      ((update_one coll [("_id", BsonValue.oid user._id)]
          [("password", BsonValue.str hash)]).1.acknowledged
        && ((update_one coll [("_id", BsonValue.oid user._id)]
          [("password", BsonValue.str hash)]).1.modified_count == 1),
       { user with password := hash },
       (update_one coll [("_id", BsonValue.oid user._id)]
          [("password", BsonValue.str hash)]).2) := by
    simp [update_user_password, User.id]
  rw [hred]
  refine ⟨rfl, ?_, update_one_length _ _ _, ?_, ?_⟩
  · intro k' hk'
    have hset : User.to_mongo { user with password := hash }
        = Doc.set (User.to_mongo user) "password" (BsonValue.str hash) := rfl
    rw [hset, Doc.get_set_ne _ _ _ _ (Ne.symm hk')]
  · intro i k' hk'
    apply update_one_frame
    intro p hp
    simp only [List.mem_singleton] at hp
    rw [hp]
    exact Ne.symm hk'
  · simp [update_one_acknowledged, update_one_modified_count]

/-- C5 witness: at a concrete record and one-document store, the record
after the call is the old record with only the password replaced, and its
serialization agrees with the old one at the `state` key. -/
theorem claim_C5_witness :
    (update_user_password (User.init 0 737791) "h2"
        [User.to_mongo (User.init 0 737791)]).2.1
      = { User.init 0 737791 with password := "h2" }
    ∧ Doc.get (User.to_mongo (update_user_password (User.init 0 737791) "h2"
          [User.to_mongo (User.init 0 737791)]).2.1) "state"
        = Doc.get (User.to_mongo (User.init 0 737791)) "state" := by
  exact ⟨(claim_C5 (User.init 0 737791) "h2"
            [User.to_mongo (User.init 0 737791)]).1,
         (claim_C5 (User.init 0 737791) "h2"
            [User.to_mongo (User.init 0 737791)]).2.1 "state" (by decide)⟩

/-- C8: the state field only ever advances forward: a freshly created
record (and the record built by the inserter) starts at
`PENDING_VERIFICATION`; the only transition `verify_registration`
performs is pending-to-active; on a non-pending record it leaves the
record untouched (in particular an active record stays active), and the
password updater never touches the state. -/
theorem claim_C8 (user : User) (coll : Collection) (hash : String)
    (nonce : Nat) (today : Int) (data : RegistrationData) :
    (User.init nonce today).state = UserState.PENDING_VERIFICATION
    ∧ (insertedUser data nonce today).state = UserState.PENDING_VERIFICATION
    ∧ (user.state = UserState.PENDING_VERIFICATION →
        (verify_registration user coll).2.1.state = UserState.ACTIVE)
    ∧ (user.state ≠ UserState.PENDING_VERIFICATION →
        (verify_registration user coll).2.1 = user)
    ∧ (user.state = UserState.ACTIVE →
        (verify_registration user coll).2.1.state = UserState.ACTIVE)
    ∧ (update_user_password user hash coll).2.1.state = user.state := by
  refine ⟨rfl, rfl, ?_, ?_, ?_, ?_⟩
  · intro h
    simp [verify_registration, h]
  · intro h
    simp [verify_registration, h]
  · intro h
    have hne : user.state ≠ UserState.PENDING_VERIFICATION := by
      rw [h]
      decide
    simp [verify_registration, hne, h, UserState.ACTIVE,
      UserState.PENDING_VERIFICATION]
  · simp [update_user_password]

/-- C8 witness: a fresh pending record is advanced to active by the
verifier, and an already-active record is left untouched. -/
theorem claim_C8_witness :
    (verify_registration (User.init 0 737791) ([] : Collection)).2.1.state
        = UserState.ACTIVE
    ∧ (verify_registration { User.init 0 737791 with state := UserState.ACTIVE }
          ([] : Collection)).2.1
        = { User.init 0 737791 with state := UserState.ACTIVE } := by
  exact ⟨(claim_C8 (User.init 0 737791) [] "h" 0 737791
            ⟨"u", "e", "f", "l", "p"⟩).2.2.1 (by decide),
         (claim_C8 { User.init 0 737791 with state := UserState.ACTIVE } [] "h"
            0 737791 ⟨"u", "e", "f", "l", "p"⟩).2.2.2.1 (by decide)⟩

/-- C9: both mutating callbacks update the in-memory record before
issuing the storage write, so a call that returns `false` (the write
modified zero stored documents) still leaves the new value in the
record: after `update_user_password` returns `false` the record's
password is already the new hash, and after `verify_registration` on a
pending record returns `false` the record's state is already active. -/
theorem claim_C9 (user : User) (hash : String) (coll : Collection) :
    ((update_user_password user hash coll).1 = false →
      (update_user_password user hash coll).2.1.password = hash)
    ∧ (user.state = UserState.PENDING_VERIFICATION →
      (verify_registration user coll).1 = false →
      (verify_registration user coll).2.1.state = UserState.ACTIVE) := by
  constructor
  · intro _
    simp [update_user_password]
  · intro h _
    simp [verify_registration, h]

/-- C9 witness: against an empty store both calls return `false`, yet the
in-memory record already carries the new password, respectively the
active state. -/
theorem claim_C9_witness :
    (update_user_password (User.init 0 737791) "h2"
        ([] : Collection)).2.1.password = "h2"
    ∧ (verify_registration (User.init 0 737791)
        ([] : Collection)).2.1.state = UserState.ACTIVE := by
  exact ⟨(claim_C9 (User.init 0 737791) "h2" []).1 (by decide),
         (claim_C9 (User.init 0 737791) "h2" []).2 (by decide) (by decide)⟩

end MongoUserBlueprint
